import Mathlib

/-!
Verification of the two Lambda request handlers of this repository:
the user-CRUD API handler (src/lambda/02_api/index.py) and the
upload-notification handler (src/lambda/01_test/index.py), together with the
database-session context manager `get_db_session`.

The embedding is shallow: Python dictionaries become association lists,
`datetime.utcnow` becomes an explicit natural-number clock passed to each
operation, exceptions become `Except PyErr`, and the relational `users` table
(with its serial primary key and unique-email constraint) becomes a list of
records plus a next-id counter.
-/

/-- Python exception values that the handlers can raise. -/
inductive PyErr where
  | valueError (msg : String)
  | keyError (key : String)
  | integrityError (msg : String)
  deriving DecidableEq

/-- Python `str(e)`: for ValueError and IntegrityError the message, for
KeyError the quoted key name. -/
def PyErr.toStr : PyErr → String
  | .valueError m => m
  | .keyError k => "\x27" ++ k ++ "\x27"
  | .integrityError m => m

/-- Whitespace characters stripped by Python `int()` before parsing. -/
def isPySpace (c : Char) : Bool :=
  c == ' ' || c == '\t' || c == '\n' || c == '\r' || c == '\x0b' || c == '\x0c'

/-- Strip leading and trailing whitespace, as Python `int()` does. -/
def pyStrip (cs : List Char) : List Char :=
  ((cs.dropWhile isPySpace).reverse.dropWhile isPySpace).reverse

/-- After a first digit, Python `int()` accepts digits with single
underscores between digit groups. -/
def digitsTail : List Char → Bool
  | [] => true
  | '_' :: [] => false
  | '_' :: c :: cs => c.isDigit && digitsTail cs
  | c :: cs => c.isDigit && digitsTail cs

/-- A nonempty digit sequence with optional internal underscores. -/
def digitsOK : List Char → Bool
  | [] => false
  | c :: cs => c.isDigit && digitsTail cs

/-- Numeric value of a digit sequence, ignoring underscores. -/
def digitsVal (cs : List Char) : Nat :=
  (cs.filter (fun c => c != '_')).foldl (fun a c => 10 * a + (c.toNat - '0'.toNat)) 0

/-- Core of Python `int()` on a stripped character list: optional sign,
then digits. -/
def pyIntCore : List Char → Option Int
  | [] => none
  | '+' :: cs => if digitsOK cs then some (digitsVal cs) else none
  | '-' :: cs => if digitsOK cs then some (-(digitsVal cs : Int)) else none
  | cs => if digitsOK cs then some (digitsVal cs) else none

/-- Python `int(s)` as a partial function: `none` means it raises ValueError. -/
def pyIntParse (s : String) : Option Int :=
  pyIntCore (pyStrip s.data)

/-- Python `repr` of a plain string (single quotes). -/
def pyRepr (s : String) : String := "\x27" ++ s ++ "\x27"

/-- Python `int(s)`, raising `ValueError` with the CPython message on an
invalid literal. -/
def pyInt (s : String) : Except PyErr Int :=
  match pyIntParse s with
  | some n => .ok n
  | none => .error (.valueError ("invalid literal for int() with base 10: " ++ pyRepr s))

/-- One row of the `users` table (model `User` in 02_api/index.py).
Timestamps are modelled as natural numbers. -/
structure UserRec where
  id : Int
  name : String
  email : String
  created_at : Nat
  updated_at : Nat
  deriving DecidableEq

/-- The state of the `users` table: its rows plus the serial counter the
storage layer uses to assign the next primary key. -/
structure DBState where
  users : List UserRec
  nextId : Int
  deriving DecidableEq

/-- Message of the IntegrityError raised by the storage layer when the
unique constraint on `email` is violated. -/
def uniqueViolationMsg : String :=
  "duplicate key value violates unique constraint \"users_email_key\""

namespace ApiLambda

/-- `create_user` (02_api/index.py): reads `body['name']` and `body['email']`
(KeyError when absent), inserts a row with the next serial id and
`created_at = updated_at = now`; the storage layer rejects a duplicate email
with an IntegrityError. Returns the created record and the new table state;
on an exception the session rolls back, leaving the table unchanged. -/
def create_user (body : List (String × String)) (db : DBState) (now : Nat) :
    Except PyErr UserRec × DBState :=
  match body.lookup "name" with
  | none => (.error (.keyError "name"), db)
  | some nm =>
    match body.lookup "email" with
    | none => (.error (.keyError "email"), db)
    | some em =>
      if db.users.any (fun u => u.email == em) then
        (.error (.integrityError uniqueViolationMsg), db)
      else
        let u : UserRec := ⟨db.nextId, nm, em, now, now⟩
        (.ok u, ⟨db.users ++ [u], db.nextId + 1⟩)

/-- `get_user` (02_api/index.py): `session.query(User).filter(User.id ==
user_id).first()`. -/
def get_user (user_id : Int) (db : DBState) : Option UserRec :=
  db.users.find? (fun u => u.id == user_id)

/-- `update_user` (02_api/index.py): looks the row up by id; when found,
re-assigns name/email from the body (`body.get` keeps the old value
otherwise). At commit, the unit of work compares each assigned value with
the stored one: when nothing differs, no UPDATE is emitted and the row —
`updated_at` included — stays as it was; when something differs, an UPDATE
is emitted and the `onupdate` hook refreshes `updated_at`, and committing an
email that differs from the row's own but equals another row's violates the
unique constraint (IntegrityError, session rolled back). Returns `none`
without touching the table when the id does not exist. -/
def update_user (user_id : Int) (body : List (String × String)) (db : DBState)
    (now : Nat) : Except PyErr (Option UserRec) × DBState :=
  match db.users.find? (fun u => u.id == user_id) with
  | none => (.ok none, db)
  | some u =>
    let nm := (body.lookup "name").getD u.name
    let em := (body.lookup "email").getD u.email
    if nm == u.name && em == u.email then
      (.ok (some u), db)
    else if em != u.email && db.users.any (fun v => v.email == em && v.id != user_id) then
      (.error (.integrityError uniqueViolationMsg), db)
    else
      let u' : UserRec := { u with name := nm, email := em, updated_at := now }
      (.ok (some u'),
       ⟨db.users.map (fun v => if v.id == user_id then u' else v), db.nextId⟩)

/-- `delete_user` (02_api/index.py): looks the row up by id; when found,
physically deletes that row and returns `True`, otherwise returns `False`. -/
def delete_user (user_id : Int) (db : DBState) : Bool × DBState :=
  match db.users.find? (fun u => u.id == user_id) with
  | none => (false, db)
  | some _ => (true, ⟨db.users.eraseP (fun u => u.id == user_id), db.nextId⟩)

/-- `list_users` (02_api/index.py): all rows. -/
def list_users (db : DBState) : List UserRec :=
  db.users

/-- The `pathParameters` field of the event: absent from the event, present
but `null`, or a dictionary of string values. -/
inductive PPVal where
  | absent
  | null
  | dict (d : List (String × String))
  deriving DecidableEq

/-- The API Gateway proxy event consumed by the handler. The `body` field is
the request body, already parsed from JSON into a string-valued dictionary
(`none` when the body is absent or empty). -/
structure ApiEvent where
  httpMethod : String
  path : String
  pathParameters : PPVal
  body : Option (List (String × String))
  deriving DecidableEq

/-- `event.get('pathParameters', \x7b\x7d)` followed by
`path_parameters.get('id') if path_parameters else None`: an absent key and a
`null` value both yield `None`; an empty dictionary is falsy and also yields
`None`; otherwise the `id` entry is looked up. -/
def extract_user_id : PPVal → Option String
  | .absent => none
  | .null => none
  | .dict d => if d.isEmpty then none else d.lookup "id"

/-- The literal route template string "/users" followed by slash, open brace,
`id`, close brace, as compared against `event['path']`. -/
def idPath : String := "/users/\x7bid\x7d"

/-- The JSON response body, kept structured (the Python code serialises it
with `json.dumps`). -/
inductive ApiBody where
  | emptyObj
  | userObj (u : UserRec)
  | userList (us : List UserRec)
  | msgObj (message : String)
  | errObj (message error : String)
  deriving DecidableEq

/-- An HTTP-shaped handler response. -/
structure ApiResponse where
  statusCode : Nat
  headers : List (String × String)
  body : ApiBody
  deriving DecidableEq

/-- Headers of the normal (non-exception) response path. -/
def okHeaders : List (String × String) :=
  [("Content-Type", "application/json"),
   ("Access-Control-Allow-Origin", "*"),
   ("Access-Control-Allow-Methods", "OPTIONS,POST,GET,PUT,DELETE")]

/-- Headers of the 500 exception response path. -/
def errHeaders : List (String × String) :=
  [("Content-Type", "application/json"),
   ("Access-Control-Allow-Origin", "*")]

/-- The dispatch inside the handler's `try` block: status code and response
body on normal completion, or the raised exception; paired with the table
state at exit (each CRUD call runs in its own rolled-back-on-error session,
so on an exception the state is unchanged). Routes exactly as the chain of
`if` statements in `handler` (02_api/index.py): path first, then method;
anything unmatched keeps the initial `status_code = 200` and the initial
empty `response_body`. -/
def route (ev : ApiEvent) (db : DBState) (now : Nat) :
    Except PyErr (Nat × ApiBody) × DBState :=
  let user_id := extract_user_id ev.pathParameters
  let bodyDict := ev.body.getD []
  if ev.path = "/users" then
    if ev.httpMethod = "POST" then
      match create_user bodyDict db now with
      | (.ok u, db') => (.ok (201, .userObj u), db')
      | (.error e, db') => (.error e, db')
    else if ev.httpMethod = "GET" then
      (.ok (200, .userList (list_users db)), db)
    else
      (.ok (200, .emptyObj), db)
  else if ev.path = idPath then
    match user_id with
    | none => (.error (.valueError "User ID is required"), db)
    | some s =>
      if s = "" then
        (.error (.valueError "User ID is required"), db)
      else if ev.httpMethod = "GET" then
        match pyInt s with
        | .error e => (.error e, db)
        | .ok n =>
          match get_user n db with
          | some u => (.ok (200, .userObj u), db)
          | none => (.ok (404, .msgObj "User not found"), db)
      else if ev.httpMethod = "PUT" then
        match pyInt s with
        | .error e => (.error e, db)
        | .ok n =>
          match update_user n bodyDict db now with
          | (.ok (some u), db') => (.ok (200, .userObj u), db')
          | (.ok none, db') => (.ok (404, .msgObj "User not found"), db')
          | (.error e, db') => (.error e, db')
      else if ev.httpMethod = "DELETE" then
        match pyInt s with
        | .error e => (.error e, db)
        | .ok n =>
          match delete_user n db with
          | (true, db') => (.ok (200, .msgObj "User deleted successfully"), db')
          | (false, db') => (.ok (404, .msgObj "User not found"), db')
      else
        (.ok (200, .emptyObj), db)
  else
    (.ok (200, .emptyObj), db)

/-- `handler` (02_api/index.py): the dispatch wrapped in the top-level
`try/except` boundary, which turns any raised exception into a 500 response
carrying `str(e)`. -/
def handler (ev : ApiEvent) (db : DBState) (now : Nat) : ApiResponse × DBState :=
  match route ev db now with
  | (.ok (sc, bv), db') => (⟨sc, okHeaders, bv⟩, db')
  | (.error e, db') =>
    (⟨500, errHeaders, .errObj "Internal server error" e.toStr⟩, db')

end ApiLambda

/-! ### The upload-notification handler (src/lambda/01_test/index.py) -/

/-- One entry of `event['Records']`. The fields a well-formed S3 notification
carries are modelled as options: `none` means the nested dictionary access
(`record['eventName']`, `record['s3']['bucket']['name']`,
`record['s3']['object']['key']`) raises a KeyError. -/
structure S3Record where
  eventName : Option String
  bucketName : Option String
  objectKey : Option String
  deriving DecidableEq

/-- The event passed to the upload handler; `none` means `event['Records']`
itself raises a KeyError. -/
structure S3Event where
  records : Option (List S3Record)
  deriving DecidableEq

/-- Dictionary access `d[k]`: KeyError on a missing key. -/
def getKey (o : Option α) (k : String) : Except PyErr α :=
  match o with
  | some v => .ok v
  | none => .error (.keyError k)

/-- `s.startswith(p)` on strings. -/
def strStarts (s p : String) : Bool :=
  p.data.isPrefixOf s.data

/-- A record the parse loop keeps: its event name is present and begins with
"ObjectCreated:". -/
def isCreatedRec (r : S3Record) : Bool :=
  match r.eventName with
  | some en => strStarts en "ObjectCreated:"
  | none => false

/-- A record on which the parse loop raises a KeyError: its event name is
missing, or it is an "ObjectCreated:" record missing the bucket name or the
object key. -/
def recMalformed (r : S3Record) : Bool :=
  match r.eventName with
  | none => true
  | some en => strStarts en "ObjectCreated:" && (r.bucketName.isNone || r.objectKey.isNone)

namespace TestLambda

/-- The loop body of `parse_s3_event` (01_test/index.py): keep the
(bucket, key) pair of every record whose event name begins with
"ObjectCreated:"; any missing field raises a KeyError that aborts the whole
traversal. -/
def parseRecords : List S3Record → Except PyErr (List (String × String))
  | [] => .ok []
  | r :: rs =>
    match getKey r.eventName "eventName" with
    | .error e => .error e
    | .ok en =>
      if strStarts en "ObjectCreated:" then
        match getKey r.bucketName "name" with
        | .error e => .error e
        | .ok b =>
          match getKey r.objectKey "key" with
          | .error e => .error e
          | .ok k =>
            match parseRecords rs with
            | .error e => .error e
            | .ok rest => .ok ((b, k) :: rest)
      else
        parseRecords rs

/-- `parse_s3_event` (01_test/index.py): `event['Records']` then the
filtering loop; KeyErrors are logged and re-raised, so they propagate. -/
def parse_s3_event (ev : S3Event) : Except PyErr (List (String × String)) :=
  match getKey ev.records "Records" with
  | .error e => .error e
  | .ok recs => parseRecords recs

/-- The handler's processing loop: call `process_file` on each (bucket, key)
in order, stopping at the first exception. `proc` is the environment's
behaviour of `process_file` (database connectivity). Returns the loop outcome
together with the list of files actually processed. -/
def runFiles (proc : String → String → Except PyErr Unit) :
    List (String × String) → Except PyErr Unit × List (String × String)
  | [] => (.ok (), [])
  | f :: fs =>
    match proc f.1 f.2 with
    | .error e => (.error e, [])
    | .ok () =>
      let (res, done) := runFiles proc fs
      (res, f :: done)

/-- Body of the upload handler's response. -/
inductive TestBody where
  | okBody (message : String) (filesProcessed : Nat)
  | errBody (message error : String)
  deriving DecidableEq

/-- The upload handler's HTTP-shaped response. -/
structure TestResponse where
  statusCode : Nat
  body : TestBody
  deriving DecidableEq

/-- `handler` (01_test/index.py): parse the event, process each extracted
file, and answer 200 with the file count, or 500 with `str(e)` when any step
raised. Also returns the list of files actually processed (observable only
as log lines in the source). -/
def handler (proc : String → String → Except PyErr Unit) (ev : S3Event) :
    TestResponse × List (String × String) :=
  match parse_s3_event ev with
  | .error e => (⟨500, .errBody "Error processing S3 event" e.toStr⟩, [])
  | .ok files =>
    match runFiles proc files with
    | (.ok (), done) =>
      (⟨200, .okBody "Successfully processed S3 event and connected to database"
          files.length⟩, done)
    | (.error e, done) => (⟨500, .errBody "Error processing S3 event" e.toStr⟩, done)

end TestLambda

/-! ### The database-session context manager (02_api/index.py) -/

/-- Observable resource events of one pass through `get_db_session`. -/
inductive SEvent where
  | rollback
  | close
  | dispose
  deriving DecidableEq

/-- How far the setup inside the `try` block got before an exception, if one
occurred there: `get_db_secret`/`create_engine` raising leaves both `engine`
and `session` as `None`; a failure constructing the session leaves only the
engine; `Base.metadata.create_all` raising happens with both created;
`setupOk` means the body of the `with` statement (the unit of work) ran. -/
inductive SetupStage where
  | failNoResources (e : PyErr)
  | failEngineOnly (e : PyErr)
  | failWithSession (e : PyErr)
  | setupOk
  deriving DecidableEq

/-- `get_db_session` (02_api/index.py): the generator's `try` block runs
setup, yields to the unit of work, then calls `session.commit()`; the
`except` clause rolls back when a session exists and re-raises; the `finally`
clause closes the session and disposes the engine when they exist. The
result is the propagated outcome together with the ordered trace of
rollback/close/dispose events. -/
def get_db_session (setup : SetupStage) (work : Except PyErr Unit)
    (commit : Option PyErr) : Except PyErr Unit × List SEvent :=
  let tryOut : Except PyErr Unit × Bool × Bool :=
    match setup with
    | .failNoResources e => (.error e, false, false)
    | .failEngineOnly e => (.error e, false, true)
    | .failWithSession e => (.error e, true, true)
    | .setupOk =>
      match work with
      | .error e => (.error e, true, true)
      | .ok () =>
        match commit with
        | some e => (.error e, true, true)
        | none => (.ok (), true, true)
  let result := tryOut.1
  let sessionMade := tryOut.2.1
  let engineMade := tryOut.2.2
  let rollbackEvts : List SEvent :=
    match result with
    | .error _ => if sessionMade then [.rollback] else []
    | .ok _ => []
  let finallyEvts : List SEvent :=
    (if sessionMade then [.close] else []) ++
    (if engineMade then [.dispose] else [])
  (result, rollbackEvts ++ finallyEvts)

/-! ### Concrete inputs used to instantiate the theorems -/

/-- An empty table, next serial id 1. -/
def db0 : DBState := ⟨[], 1⟩

/-- A stored user with id 1. -/
def userAnn : UserRec := ⟨1, "ann", "ann@example.com", 0, 0⟩

/-- A second stored user with id 2 and a distinct email. -/
def userBob : UserRec := ⟨2, "bob", "bob@example.com", 0, 0⟩

/-- A table holding only `userAnn`. -/
def dbOne : DBState := ⟨[userAnn], 2⟩

/-- A table holding `userAnn` and `userBob`. -/
def dbTwo : DBState := ⟨[userAnn, userBob], 3⟩

/-- A PATCH request on the id route with no path parameters at all. -/
def evPatchNoId : ApiLambda.ApiEvent := ⟨"PATCH", ApiLambda.idPath, .absent, none⟩

/-- A PATCH request on a path the handler does not recognise. -/
def evPatchUnknownPath : ApiLambda.ApiEvent := ⟨"PATCH", "/ping", .absent, none⟩

/-- GET of user id 7. -/
def evGetSeven : ApiLambda.ApiEvent := ⟨"GET", ApiLambda.idPath, .dict [("id", "7")], none⟩

/-- DELETE of user id 1. -/
def evDeleteOne : ApiLambda.ApiEvent := ⟨"DELETE", ApiLambda.idPath, .dict [("id", "1")], none⟩

/-- GET of user id 1. -/
def evGetOne : ApiLambda.ApiEvent := ⟨"GET", ApiLambda.idPath, .dict [("id", "1")], none⟩

/-- A PATCH request on the id route with a non-numeric id. -/
def evPatchBadId : ApiLambda.ApiEvent := ⟨"PATCH", ApiLambda.idPath, .dict [("id", "abc")], none⟩

/-- A GET request on the id route with a non-numeric id. -/
def evGetBadId : ApiLambda.ApiEvent := ⟨"GET", ApiLambda.idPath, .dict [("id", "abc")], none⟩

/-- A DELETE request on the id route with no path parameters. -/
def evDeleteNoId : ApiLambda.ApiEvent := ⟨"DELETE", ApiLambda.idPath, .absent, none⟩

/-- A create body carrying a name and an email. -/
def createBody : List (String × String) := [("name", "ann"), ("email", "ann@example.com")]

/-- An update body carrying only a name. -/
def updateBodyName : List (String × String) := [("name", "carol")]

/-- A record of a non-creation S3 event whose s3 fields are absent. -/
def skippedRec : S3Record := ⟨some "ObjectRemoved:Delete", none, none⟩

/-- An upload event holding only `skippedRec`. -/
def evSkipped : S3Event := ⟨some [skippedRec]⟩

/-- A record with no event name at all. -/
def noNameRec : S3Record := ⟨none, some "bucket-a", some "data/file.csv"⟩

/-- An upload event holding only `noNameRec`. -/
def evNoName : S3Event := ⟨some [noNameRec]⟩

/-- A well-formed object-created record. -/
def createdRec : S3Record := ⟨some "ObjectCreated:Put", some "bucket-a", some "data/file.csv"⟩

/-- An upload event with one created record and one skipped record. -/
def evCreated : S3Event := ⟨some [createdRec, skippedRec]⟩

/-- An environment in which every `process_file` call succeeds. -/
def procAllOk : String → String → Except PyErr Unit := fun _ _ => .ok ()

/-! ### Helper lemmas -/

/-- Searching a concatenation whose first part has no match searches the
second part. -/
theorem find?_append_of_none {α : Type} (p : α → Bool) (l₁ l₂ : List α)
    (h : l₁.find? p = none) : (l₁ ++ l₂).find? p = l₂.find? p := by
  induction l₁ with
  | nil => rfl
  | cons a l ih =>
    have hpa : ¬ p a = true := by
      intro hp
      rw [List.find?_cons_of_pos _ hp] at h
      exact Option.noConfusion h
    rw [List.find?_cons_of_neg _ hpa] at h
    rw [List.cons_append, List.find?_cons_of_neg _ hpa, ih h]

/-- When the stored ids are pairwise distinct, erasing the row with a given
id leaves no row with that id. -/
theorem find?_eraseP_nodup (l : List UserRec) (n : Int)
    (hnd : (l.map UserRec.id).Nodup) :
    (l.eraseP (fun u => u.id == n)).find? (fun u => u.id == n) = none := by
  induction l with
  | nil => rfl
  | cons a l ih =>
    rw [List.map_cons, List.nodup_cons] at hnd
    obtain ⟨ha, hl⟩ := hnd
    by_cases hpa : a.id = n
    · rw [List.eraseP_cons_of_pos (by simp [hpa])]
      rw [List.find?_eq_none]
      intro v hv
      simp only [beq_iff_eq]
      intro hvn
      exact ha (hpa ▸ hvn ▸ List.mem_map_of_mem UserRec.id hv)
    · rw [List.eraseP_cons_of_neg (by simp [hpa]),
        List.find?_cons_of_neg _ (by simp [hpa])]
      exact ih hl

/-- A successful parse extracts one file per record whose event name begins
with "ObjectCreated:". -/
theorem parseRecords_ok_length (rs : List S3Record) (fs : List (String × String))
    (h : TestLambda.parseRecords rs = .ok fs) :
    fs.length = rs.countP isCreatedRec := by
  induction rs generalizing fs with
  | nil =>
    simp [TestLambda.parseRecords] at h
    simp [← h]
  | cons r rs ih =>
    rw [List.countP_cons]
    cases hen : r.eventName with
    | none => simp [TestLambda.parseRecords, getKey, hen] at h
    | some en =>
      by_cases hcr : strStarts en "ObjectCreated:" = true
      · cases hb : r.bucketName with
        | none => simp [TestLambda.parseRecords, getKey, hen, hcr, hb] at h
        | some b =>
          cases hk : r.objectKey with
          | none => simp [TestLambda.parseRecords, getKey, hen, hcr, hb, hk] at h
          | some k =>
            cases hrest : TestLambda.parseRecords rs with
            | error e =>
              simp [TestLambda.parseRecords, getKey, hen, hcr, hb, hk, hrest] at h
            | ok rest =>
              have hfs : fs = (b, k) :: rest := by
                simp [TestLambda.parseRecords, getKey, hen, hcr, hb, hk, hrest] at h
                exact h.symm
              subst hfs
              simp [isCreatedRec, hen, hcr, ih rest hrest]
      · have h' : TestLambda.parseRecords (r :: rs) = TestLambda.parseRecords rs := by
          simp [TestLambda.parseRecords, getKey, hen, hcr]
        rw [h'] at h
        simp [isCreatedRec, hen, hcr, ih fs h]

/-- When the environment accepts every extracted file, the processing loop
succeeds and processes all of them in order. -/
theorem runFiles_all_ok (proc : String → String → Except PyErr Unit)
    (fs : List (String × String)) (h : ∀ f ∈ fs, proc f.1 f.2 = .ok ()) :
    TestLambda.runFiles proc fs = (.ok (), fs) := by
  induction fs with
  | nil => rfl
  | cons f fs ih =>
    have hf : proc f.1 f.2 = .ok () := h f (List.mem_cons_self f fs)
    simp [TestLambda.runFiles, hf, ih (fun g hg => h g (List.mem_cons_of_mem f hg))]

/-- A batch containing a record the parse loop cannot read fails as a whole. -/
theorem parseRecords_malformed (rs : List S3Record)
    (h : ∃ r ∈ rs, recMalformed r = true) :
    ∃ e, TestLambda.parseRecords rs = .error e := by
  induction rs with
  | nil => simp at h
  | cons r rs ih =>
    by_cases hm : recMalformed r = true
    · cases hen : r.eventName with
      | none => exact ⟨.keyError "eventName", by simp [TestLambda.parseRecords, getKey, hen]⟩
      | some en =>
        rw [recMalformed, hen] at hm
        simp only [Bool.and_eq_true, Bool.or_eq_true] at hm
        obtain ⟨hcr, hmiss⟩ := hm
        cases hb : r.bucketName with
        | none =>
          exact ⟨.keyError "name", by simp [TestLambda.parseRecords, getKey, hen, hcr, hb]⟩
        | some b =>
          cases hk : r.objectKey with
          | none =>
            exact ⟨.keyError "key", by simp [TestLambda.parseRecords, getKey, hen, hcr, hb, hk]⟩
          | some k =>
            rw [hb, hk] at hmiss
            simp [Option.isNone] at hmiss
    · have hrs : ∃ r ∈ rs, recMalformed r = true := by
        rcases h with ⟨r', hr', hm'⟩
        rcases List.mem_cons.mp hr' with he | hmem
        · exact absurd (he ▸ hm') hm
        · exact ⟨r', hmem, hm'⟩
      obtain ⟨e, he⟩ := ih hrs
      cases hen : r.eventName with
      | none => exact ⟨.keyError "eventName", by simp [TestLambda.parseRecords, getKey, hen]⟩
      | some en =>
        by_cases hcr : strStarts en "ObjectCreated:" = true
        · rw [recMalformed, hen] at hm
          simp only [Bool.and_eq_true, Bool.or_eq_true, not_and, not_or] at hm
          have hmiss := hm hcr
          cases hb : r.bucketName with
          | none => simp [hb, Option.isNone] at hmiss
          | some b =>
            cases hk : r.objectKey with
            | none => simp [hk, Option.isNone] at hmiss
            | some k =>
              exact ⟨e, by simp [TestLambda.parseRecords, getKey, hen, hcr, hb, hk, he]⟩
        · exact ⟨e, by simp [TestLambda.parseRecords, getKey, hen, hcr, he]⟩

/-! ### C1 -/

/-- C1: with setup complete (a unit of work runs inside `get_db_session`),
every exit path closes the session exactly once and disposes the engine
exactly once; on normal completion the trace is close-then-dispose with no
rollback, and an exception during the work or during commit triggers a
rollback that precedes the close and the dispose. -/
theorem c1_session_exact_release (work : Except PyErr Unit) (commit : Option PyErr) :
    (get_db_session .setupOk work commit).2.count .close = 1 ∧
    (get_db_session .setupOk work commit).2.count .dispose = 1 ∧
    (work = .ok () → commit = none →
      (get_db_session .setupOk work commit).2 = [.close, .dispose]) ∧
    (∀ e, work = .error e →
      (get_db_session .setupOk work commit).2 = [.rollback, .close, .dispose]) ∧
    (∀ e, commit = some e →
      (get_db_session .setupOk work commit).2 = [.rollback, .close, .dispose]) := by
  cases work with
  | ok u => cases u; cases commit <;> simp [get_db_session]
  | error e => simp [get_db_session]

/-- C1 witness: a failing unit of work at a concrete error value. -/
theorem c1_session_exact_release_witness :
    (get_db_session .setupOk (.error (.valueError "boom")) none).2 =
      [.rollback, .close, .dispose] :=
  (c1_session_exact_release (.error (.valueError "boom")) none).2.2.2.1
    (.valueError "boom") rfl

/-! ### C2 -/

/-- C2 counterexample: the pair (path "/users/.id.", method PATCH) is not one
of the five recognized operations, yet with `pathParameters` absent the
handler answers 500, not 200 with an empty body. -/
theorem c2_fallthrough_counterexample :
    (ApiLambda.handler evPatchNoId db0 0).1.statusCode = 500 ∧
    (ApiLambda.handler evPatchNoId db0 0).1.statusCode ≠ 200 ∧
    (ApiLambda.handler evPatchNoId db0 0).1.body ≠ ApiLambda.ApiBody.emptyObj := by
  decide

/-- C2 (amended): a request whose path/method pair is not one of the five
recognized operations falls through to the default 200 with an empty JSON
object body, provided that a request on the id route carries a non-empty id
path parameter (otherwise the id check raises first and a 500 results). -/
theorem c2_fallthrough_amended (ev : ApiLambda.ApiEvent) (db : DBState) (now : Nat)
    (hu : ¬ (ev.path = "/users" ∧ (ev.httpMethod = "POST" ∨ ev.httpMethod = "GET")))
    (hi : ¬ (ev.path = ApiLambda.idPath ∧
      (ev.httpMethod = "GET" ∨ ev.httpMethod = "PUT" ∨ ev.httpMethod = "DELETE")))
    (hid : ev.path = ApiLambda.idPath →
      ∃ s, ApiLambda.extract_user_id ev.pathParameters = some s ∧ s ≠ "") :
    ApiLambda.handler ev db now = (⟨200, ApiLambda.okHeaders, .emptyObj⟩, db) := by
  obtain ⟨m, p, pp, bd⟩ := ev
  dsimp only at hu hi hid
  by_cases hp1 : p = "/users"
  · subst hp1
    have hm1 : m ≠ "POST" := fun h => hu ⟨rfl, Or.inl h⟩
    have hm2 : m ≠ "GET" := fun h => hu ⟨rfl, Or.inr h⟩
    simp [ApiLambda.handler, ApiLambda.route, hm1, hm2]
  · by_cases hp2 : p = ApiLambda.idPath
    · subst hp2
      obtain ⟨s, hs, hne⟩ := hid rfl
      have hm1 : m ≠ "GET" := fun h => hi ⟨rfl, Or.inl h⟩
      have hm2 : m ≠ "PUT" := fun h => hi ⟨rfl, Or.inr (Or.inl h)⟩
      have hm3 : m ≠ "DELETE" := fun h => hi ⟨rfl, Or.inr (Or.inr h)⟩
      simp [ApiLambda.handler, ApiLambda.route, hs, hne, hm1, hm2, hm3, ApiLambda.idPath]
    · simp [ApiLambda.handler, ApiLambda.route, hp1, hp2]

/-- C2 witness: a PATCH on an unrecognized path with an empty table. -/
theorem c2_fallthrough_amended_witness :
    ApiLambda.handler evPatchUnknownPath db0 0 =
      (⟨200, ApiLambda.okHeaders, .emptyObj⟩, db0) :=
  c2_fallthrough_amended evPatchUnknownPath db0 0 (by decide) (by decide)
    (fun h => absurd h (by decide))

/-! ### C3 -/

/-- C3: a GET, PUT or DELETE on the id route with a well-formed id that
matches no stored user answers 404 with the structured "User not found"
message, and the stored records are unchanged. -/
theorem c3_not_found_no_side_effect (ev : ApiLambda.ApiEvent) (db : DBState)
    (now : Nat) (s : String) (n : Int)
    (hp : ev.path = ApiLambda.idPath)
    (hm : ev.httpMethod = "GET" ∨ ev.httpMethod = "PUT" ∨ ev.httpMethod = "DELETE")
    (hs : ApiLambda.extract_user_id ev.pathParameters = some s) (hne : s ≠ "")
    (hn : pyIntParse s = some n)
    (habs : ∀ u ∈ db.users, u.id ≠ n) :
    (ApiLambda.handler ev db now).1.statusCode = 404 ∧
    (ApiLambda.handler ev db now).1.body = .msgObj "User not found" ∧
    (ApiLambda.handler ev db now).2 = db := by
  obtain ⟨m, p, pp, bd⟩ := ev
  dsimp only at hp hm hs
  subst hp
  have hfind : db.users.find? (fun u => u.id == n) = none := by
    rw [List.find?_eq_none]
    intro u hu
    simpa using habs u hu
  rcases hm with h | h | h <;> subst h <;>
    simp [ApiLambda.handler, ApiLambda.route, hs, hne, ApiLambda.idPath, pyInt, hn,
      ApiLambda.get_user, ApiLambda.update_user, ApiLambda.delete_user, hfind]

/-- C3 witness: GET of id 7 on the empty table. -/
theorem c3_not_found_no_side_effect_witness :
    (ApiLambda.handler evGetSeven db0 0).1.statusCode = 404 ∧
    (ApiLambda.handler evGetSeven db0 0).1.body = .msgObj "User not found" ∧
    (ApiLambda.handler evGetSeven db0 0).2 = db0 :=
  c3_not_found_no_side_effect evGetSeven db0 0 "7" 7 rfl (Or.inl rfl) rfl
    (by decide) (by decide) (by decide)

/-! ### C4 -/

/-- C4 counterexample: two concrete bodies defeat the claim as stated.
Updating `userAnn` with another stored user's email makes the commit raise
an IntegrityError and changes nothing, so `updated_at` does not advance; and
updating `userAnn` with an empty body re-assigns the current values, the
flush emits no UPDATE, and the row — `updated_at` included — is returned
unchanged, again without a strict advance. -/
theorem c4_update_counterexample :
    (ApiLambda.update_user 1 [("email", "bob@example.com")] dbTwo 5 =
       (.error (.integrityError uniqueViolationMsg), dbTwo) ∧
     ApiLambda.get_user 1 dbTwo = some userAnn) ∧
    (ApiLambda.update_user 1 [] dbOne 5 = (.ok (some userAnn), dbOne) ∧
     userAnn.updated_at = 0) :=
  ⟨⟨rfl, rfl⟩, rfl, rfl⟩

/-- C4 (amended): for an existing user id and an update body that actually
changes something (the assigned name or email differs from the stored one),
where an email differing from the row's own matches no stored user's email,
`update_user` succeeds, changes exactly the supplied fields, keeps `id` and
`created_at`, and refreshes `updated_at` to the update time, strictly
advancing it (in the clock model the update runs after the write that last
set it). Fields absent from the body keep their previous values, and every
other stored row is unchanged. -/
theorem c4_update_frame_amended (uid : Int) (body : List (String × String))
    (db : DBState) (now : Nat) (u : UserRec)
    (hf : db.users.find? (fun v => v.id == uid) = some u)
    (hch : ¬ ((body.lookup "name").getD u.name = u.name ∧
              (body.lookup "email").getD u.email = u.email))
    (hem : (body.lookup "email").getD u.email ≠ u.email →
      ∀ v ∈ db.users, v.email ≠ (body.lookup "email").getD u.email)
    (ht : u.updated_at < now) :
    ∃ u', ApiLambda.update_user uid body db now =
        (.ok (some u'),
         ⟨db.users.map (fun v => if v.id == uid then u' else v), db.nextId⟩) ∧
      u'.id = u.id ∧ u'.created_at = u.created_at ∧
      u'.name = (body.lookup "name").getD u.name ∧
      u'.email = (body.lookup "email").getD u.email ∧
      u.updated_at < u'.updated_at := by
  have hg1 : (((body.lookup "name").getD u.name == u.name) &&
      ((body.lookup "email").getD u.email == u.email)) ≠ true := by
    simp only [ne_eq, Bool.and_eq_true, beq_iff_eq]
    exact hch
  have hg2 : (((body.lookup "email").getD u.email != u.email) &&
      db.users.any (fun v => v.email == (body.lookup "email").getD u.email &&
        v.id != uid)) = false := by
    by_cases hemeq : (body.lookup "email").getD u.email = u.email
    · simp [hemeq]
    · have hall := hem hemeq
      have hany : db.users.any (fun v => v.email == (body.lookup "email").getD u.email &&
          v.id != uid) = false := by
        rw [List.any_eq_false]
        intro v hv
        simp only [Bool.and_eq_true, beq_iff_eq, bne_iff_ne, not_and]
        intro hve
        exact absurd hve (hall v hv)
      simp [hany]
  refine ⟨⟨u.id, (body.lookup "name").getD u.name,
      (body.lookup "email").getD u.email, u.created_at, now⟩,
    ?_, rfl, rfl, rfl, rfl, ht⟩
  simp [ApiLambda.update_user, hf, hg1, hg2]

/-- C4 witness: a name-only update of `userAnn` to a new name at time 5. -/
theorem c4_update_frame_amended_witness :
    ∃ u', ApiLambda.update_user 1 updateBodyName dbOne 5 =
        (.ok (some u'),
         ⟨dbOne.users.map (fun v => if v.id == 1 then u' else v), dbOne.nextId⟩) ∧
      u'.id = userAnn.id ∧ u'.created_at = userAnn.created_at ∧
      u'.name = (updateBodyName.lookup "name").getD userAnn.name ∧
      u'.email = (updateBodyName.lookup "email").getD userAnn.email ∧
      userAnn.updated_at < u'.updated_at :=
  c4_update_frame_amended 1 updateBodyName dbOne 5 userAnn (by decide) (by decide)
    (by decide) (by decide)

/-! ### C5 -/

/-- C5: creating a user from a body holding a name and a fresh email appends
a record carrying exactly those values, with `created_at = updated_at`, and
`get_user` on the returned id finds that very record (given the storage
invariant that no stored row already uses the next serial id). -/
theorem c5_create_then_get (body : List (String × String)) (db : DBState)
    (now : Nat) (nm em : String)
    (hn : body.lookup "name" = some nm) (he : body.lookup "email" = some em)
    (hfresh : ∀ v ∈ db.users, v.email ≠ em)
    (hids : ∀ v ∈ db.users, v.id ≠ db.nextId) :
    ∃ u, ApiLambda.create_user body db now =
        (.ok u, ⟨db.users ++ [u], db.nextId + 1⟩) ∧
      u.name = nm ∧ u.email = em ∧ u.created_at = u.updated_at ∧
      ApiLambda.get_user u.id (ApiLambda.create_user body db now).2 = some u := by
  have hany : db.users.any (fun v => v.email == em) = false := by
    rw [List.any_eq_false]
    intro v hv
    simpa using hfresh v hv
  have hcreate : ApiLambda.create_user body db now =
      (.ok ⟨db.nextId, nm, em, now, now⟩,
       ⟨db.users ++ [⟨db.nextId, nm, em, now, now⟩], db.nextId + 1⟩) := by
    simp [ApiLambda.create_user, hn, he, hany]
  refine ⟨⟨db.nextId, nm, em, now, now⟩, hcreate, rfl, rfl, rfl, ?_⟩
  rw [hcreate]
  show (db.users ++ [(⟨db.nextId, nm, em, now, now⟩ : UserRec)]).find?
    (fun u => u.id == db.nextId) = _
  rw [find?_append_of_none]
  · simp [List.find?]
  · rw [List.find?_eq_none]
    intro v hv
    simpa using hids v hv

/-- C5 witness: creating "ann" in the empty table at time 3. -/
theorem c5_create_then_get_witness :
    ∃ u, ApiLambda.create_user createBody db0 3 =
        (.ok u, ⟨db0.users ++ [u], db0.nextId + 1⟩) ∧
      u.name = "ann" ∧ u.email = "ann@example.com" ∧ u.created_at = u.updated_at ∧
      ApiLambda.get_user u.id (ApiLambda.create_user createBody db0 3).2 = some u :=
  c5_create_then_get createBody db0 3 "ann" "ann@example.com" rfl rfl
    (by decide) (by decide)

/-! ### C6 -/

/-- C6: when a DELETE on the id route succeeds (statusCode 200), a GET of the
same id against the resulting table always answers 404 "User not found":
deletion is physical and the record does not reappear (the stored ids are
pairwise distinct, as the primary key guarantees). -/
theorem c6_delete_then_get (evd evg : ApiLambda.ApiEvent) (db : DBState)
    (now now2 : Nat) (s t : String) (n : Int)
    (hpd : evd.path = ApiLambda.idPath) (hmd : evd.httpMethod = "DELETE")
    (hsd : ApiLambda.extract_user_id evd.pathParameters = some s) (hsne : s ≠ "")
    (hns : pyIntParse s = some n)
    (hpg : evg.path = ApiLambda.idPath) (hmg : evg.httpMethod = "GET")
    (hsg : ApiLambda.extract_user_id evg.pathParameters = some t) (htne : t ≠ "")
    (hnt : pyIntParse t = some n)
    (hnd : (db.users.map UserRec.id).Nodup)
    (hok : (ApiLambda.handler evd db now).1.statusCode = 200) :
    (ApiLambda.handler evg (ApiLambda.handler evd db now).2 now2).1.statusCode = 404 ∧
    (ApiLambda.handler evg (ApiLambda.handler evd db now).2 now2).1.body =
      .msgObj "User not found" := by
  obtain ⟨md, pd, ppd, bdd⟩ := evd
  obtain ⟨mg, pg, ppg, bdg⟩ := evg
  dsimp only at hpd hmd hsd hpg hmg hsg
  subst hpd hmd hpg hmg
  cases hfind : db.users.find? (fun u => u.id == n) with
  | none =>
    exfalso
    simp [ApiLambda.handler, ApiLambda.route, hsd, hsne, ApiLambda.idPath, pyInt, hns,
      ApiLambda.delete_user, hfind] at hok
  | some u =>
    have hdel : ApiLambda.delete_user n db =
        (true, ⟨db.users.eraseP (fun u => u.id == n), db.nextId⟩) := by
      simp [ApiLambda.delete_user, hfind]
    have h1 : ApiLambda.handler ⟨"DELETE", ApiLambda.idPath, ppd, bdd⟩ db now =
        (⟨200, ApiLambda.okHeaders, .msgObj "User deleted successfully"⟩,
         ⟨db.users.eraseP (fun u => u.id == n), db.nextId⟩) := by
      simp [ApiLambda.handler, ApiLambda.route, hsd, hsne, ApiLambda.idPath, pyInt,
        hns, hdel]
    rw [h1]
    have hg : ApiLambda.get_user n ⟨db.users.eraseP (fun u => u.id == n), db.nextId⟩
        = none := by
      show (db.users.eraseP (fun u => u.id == n)).find? (fun u => u.id == n) = none
      exact find?_eraseP_nodup db.users n hnd
    simp [ApiLambda.handler, ApiLambda.route, hsg, htne, ApiLambda.idPath, pyInt,
      hnt, hg]

/-- C6 witness: delete then get of id 1 on the one-user table. -/
theorem c6_delete_then_get_witness :
    (ApiLambda.handler evGetOne (ApiLambda.handler evDeleteOne dbOne 4).2 5).1.statusCode
      = 404 ∧
    (ApiLambda.handler evGetOne (ApiLambda.handler evDeleteOne dbOne 4).2 5).1.body =
      .msgObj "User not found" :=
  c6_delete_then_get evDeleteOne evGetOne dbOne 4 5 "1" "1" 1 rfl rfl (by decide)
    (by decide) (by decide) rfl rfl (by decide) (by decide) (by decide) (by decide)
    (by decide)

/-! ### C7 -/

/-- C7: the upload handler keeps exactly the records whose event name starts
with "ObjectCreated:"; when the parse and every `process_file` call succeed
it answers 200 with `filesProcessed` equal to the number of such records
(and processes exactly their files); when the parse raises, or any
`process_file` call raises, it answers 500 with the error's text. -/
theorem c7_upload_dispatch (proc : String → String → Except PyErr Unit)
    (ev : S3Event) (recs : List S3Record) (hr : ev.records = some recs) :
    (∀ e, TestLambda.parse_s3_event ev = .error e →
       (TestLambda.handler proc ev).1 =
         ⟨500, .errBody "Error processing S3 event" e.toStr⟩) ∧
    (∀ files, TestLambda.parse_s3_event ev = .ok files →
       files.length = recs.countP isCreatedRec ∧
       ((∀ f ∈ files, proc f.1 f.2 = .ok ()) →
         TestLambda.handler proc ev =
           (⟨200, .okBody "Successfully processed S3 event and connected to database"
              (recs.countP isCreatedRec)⟩, files)) ∧
       (∀ e done, TestLambda.runFiles proc files = (.error e, done) →
         (TestLambda.handler proc ev).1 =
           ⟨500, .errBody "Error processing S3 event" e.toStr⟩)) := by
  refine ⟨fun e he => ?_, fun files hf => ?_⟩
  · simp [TestLambda.handler, he]
  · have hlen : files.length = recs.countP isCreatedRec := by
      apply parseRecords_ok_length
      simpa [TestLambda.parse_s3_event, getKey, hr] using hf
    refine ⟨hlen, fun hall => ?_, fun e done hrun => ?_⟩
    · simp [TestLambda.handler, hf, runFiles_all_ok proc files hall, hlen]
    · simp [TestLambda.handler, hf, hrun]

/-- C7 witness: one created record and one skipped record, with a database
that accepts every connection. -/
theorem c7_upload_dispatch_witness :
    TestLambda.handler procAllOk evCreated =
      (⟨200, .okBody "Successfully processed S3 event and connected to database" 1⟩,
       [("bucket-a", "data/file.csv")]) := by
  have h := ((c7_upload_dispatch procAllOk evCreated [createdRec, skippedRec] rfl).2
    [("bucket-a", "data/file.csv")] rfl).2.1 (fun f _ => rfl)
  simpa using h

/-! ### C8 -/

/-- C8 counterexample: a record whose event name is present but is not an
"ObjectCreated:" name, and whose s3 bucket-name/object-key fields are
missing, is skipped by the filter before those fields are read, so the batch
succeeds with 200 instead of failing with 500. -/
theorem c8_malformed_counterexample :
    skippedRec.bucketName = none ∧ skippedRec.objectKey = none ∧
    (TestLambda.handler procAllOk evSkipped).1.statusCode = 200 ∧
    (TestLambda.handler procAllOk evSkipped).1.statusCode ≠ 500 := by
  decide

/-- C8 (amended): an upload event containing a record the parse loop cannot
read — one with no event name, or an "ObjectCreated:" record missing the s3
bucket-name or object-key field — makes the whole batch fail with 500, and
no file at all is processed. -/
theorem c8_malformed_batch_amended (proc : String → String → Except PyErr Unit)
    (ev : S3Event) (recs : List S3Record) (hr : ev.records = some recs)
    (hbad : ∃ r ∈ recs, recMalformed r = true) :
    ∃ e, TestLambda.parse_s3_event ev = .error e ∧
      TestLambda.handler proc ev =
        (⟨500, .errBody "Error processing S3 event" e.toStr⟩, []) := by
  obtain ⟨e, he⟩ := parseRecords_malformed recs hbad
  have hp : TestLambda.parse_s3_event ev = .error e := by
    simp [TestLambda.parse_s3_event, getKey, hr, he]
  exact ⟨e, hp, by simp [TestLambda.handler, hp]⟩

/-- C8 witness: a batch holding one record with no event name. -/
theorem c8_malformed_batch_amended_witness :
    ∃ e, TestLambda.parse_s3_event evNoName = .error e ∧
      TestLambda.handler procAllOk evNoName =
        (⟨500, .errBody "Error processing S3 event" e.toStr⟩, []) :=
  c8_malformed_batch_amended procAllOk evNoName [noNameRec] rfl
    ⟨noNameRec, List.mem_cons_self noNameRec [], by decide⟩

/-! ### C9 -/

/-- C9 counterexample: a request to the id route with the non-numeric,
non-empty id "abc" but an unrecognized method (PATCH) never reaches the
integer parse: the handler answers 200, not 500. -/
theorem c9_bad_id_counterexample :
    (ApiLambda.handler evPatchBadId db0 0).1.statusCode = 200 ∧
    (ApiLambda.handler evPatchBadId db0 0).1.statusCode ≠ 500 := by
  decide

/-- C9 (amended): a GET, PUT or DELETE on the id route whose non-empty id is
not a valid integer literal makes `int()` raise, and the outer exception
boundary answers 500 with the error's string representation in the body; the
stored records are unchanged. -/
theorem c9_bad_id_amended (ev : ApiLambda.ApiEvent) (db : DBState) (now : Nat)
    (s : String)
    (hp : ev.path = ApiLambda.idPath)
    (hm : ev.httpMethod = "GET" ∨ ev.httpMethod = "PUT" ∨ ev.httpMethod = "DELETE")
    (hs : ApiLambda.extract_user_id ev.pathParameters = some s) (hne : s ≠ "")
    (hbad : pyIntParse s = none) :
    ApiLambda.handler ev db now =
      (⟨500, ApiLambda.errHeaders, .errObj "Internal server error"
          ("invalid literal for int() with base 10: " ++ pyRepr s)⟩, db) := by
  obtain ⟨m, p, pp, bd⟩ := ev
  dsimp only at hp hm hs
  subst hp
  rcases hm with h | h | h <;> subst h <;>
    simp [ApiLambda.handler, ApiLambda.route, hs, hne, ApiLambda.idPath, pyInt, hbad,
      PyErr.toStr]

/-- C9 witness: GET with id "abc" on the empty table. -/
theorem c9_bad_id_amended_witness :
    ApiLambda.handler evGetBadId db0 0 =
      (⟨500, ApiLambda.errHeaders, .errObj "Internal server error"
          ("invalid literal for int() with base 10: " ++ pyRepr "abc")⟩, db0) :=
  c9_bad_id_amended evGetBadId db0 0 "abc" rfl (Or.inl rfl) rfl (by decide) (by decide)

/-! ### C10 -/

/-- C10: on the id route, when `pathParameters` is absent, null, or carries
no non-empty id, the handler raises ValueError("User ID is required") before
any method dispatch, so whatever the HTTP method it answers 500 with that
message, and the stored records are unchanged. -/
theorem c10_missing_id (ev : ApiLambda.ApiEvent) (db : DBState) (now : Nat)
    (hp : ev.path = ApiLambda.idPath)
    (hid : ApiLambda.extract_user_id ev.pathParameters = none ∨
      ApiLambda.extract_user_id ev.pathParameters = some "") :
    ApiLambda.handler ev db now =
      (⟨500, ApiLambda.errHeaders, .errObj "Internal server error"
          "User ID is required"⟩, db) := by
  obtain ⟨m, p, pp, bd⟩ := ev
  dsimp only at hp hid
  subst hp
  rcases hid with h | h <;>
    simp [ApiLambda.handler, ApiLambda.route, h, ApiLambda.idPath, PyErr.toStr]

/-- C10 witness: DELETE on the id route with no path parameters. -/
theorem c10_missing_id_witness :
    ApiLambda.handler evDeleteNoId db0 0 =
      (⟨500, ApiLambda.errHeaders, .errObj "Internal server error"
          "User ID is required"⟩, db0) :=
  c10_missing_id evDeleteNoId db0 0 rfl (Or.inl rfl)
